import Mathlib

/-!
Shallow embedding of `nwhead/support.py` (support-set management for an
NW-style head): environment partitioning (`SupportSet`), training-time
sampling (`SupportSetTrain`), and evaluation-time support selection
(`SupportSetEval`).

Datasets are modelled as lists of `(input, label)` pairs of integers; a
dataset's `targets` attribute is the list of labels in order.  Errors are
modelled with an explicit error type whose constructors follow the spec's
error taxonomy for deliberate failure sites and Python's exception classes
for raw attribute/key/index failures; each constructor's doc comment names
the Python realisation.
-/

deriving instance DecidableEq for Except

namespace NWSupport

/-- Errors of the embedded program.  Constructors for deliberate failure
sites follow the spec's error taxonomy (PreconditionError,
UnsupportedModeError, AssertionViolation); raw Python attribute / key /
index failures keep their Python names. -/
inductive PyError
  /-- An attribute read on an object that does not carry the attribute
  (Python `AttributeError`), tagged with the attribute name. -/
  | attributeError (name : String)
  /-- The spec's PreconditionError: a caller-side precondition violation.
  Python realisations: the `assert torch.equal(env_index, ...)` failure in
  `SupportSetTrain.get_support` (`match` policy), and the deliberate
  re-raise `raise AttributeError('Did you run precompute()?')` in
  `SupportSetEval.get_support`, which the spec's taxonomy classifies as the
  not-precomputed precondition failure. -/
  | preconditionError (msg : String)
  /-- The spec's UnsupportedModeError: an unrecognized evaluation mode.
  Python realisation: `raise NotImplementedError` in
  `SupportSetEval.get_support`. -/
  | unsupportedModeError
  /-- The spec's AssertionViolation: a failed label-balance audit assertion
  in `SupportSetTrain._verify_sy` (Python `AssertionError`). -/
  | assertionViolation
  /-- Python `KeyError` (failed `env_map` lookup). -/
  | keyError
  /-- Python `IndexError` (index into an empty or too-short sequence). -/
  | indexError
  /-- Any other collaborator-raised error, tagged with a message. -/
  | runtimeError (msg : String)
  deriving DecidableEq, Repr

/-- `np.unique`: the distinct values of an integer array, sorted ascending. -/
def npUnique (l : List Int) : List Int :=
  l.dedup.insertionSort (· ≤ ·)

/-- The `targets` attribute of a dataset: its labels, one per item, in
dataset order. -/
def datasetTargets (d : List (Int × Int)) : List Int :=
  d.map Prod.snd

/-- `SupportSet._separate_env_datasets`: for each distinct environment id
(ascending, as `np.unique` returns them), the subset of the combined
dataset at the positions holding that id
(`indices = (self.env_array==attr).nonzero()[0]`), in position order; the
subset's `targets` are `self.y_array[indices]`, which coincides with the
labels carried by the selected items. -/
def separate_env_datasets (envArr : List Int) (combined : List (Int × Int)) :
    List (List (Int × Int)) :=
  (npUnique envArr).map fun a =>
    ((envArr.zip combined).filter (fun p => p.1 = a)).map Prod.snd

/-- The `env_map` built by `_separate_env_datasets`: raw environment id to
dense index, in ascending id order. -/
def separate_env_map (envArr : List Int) : List (Int × Nat) :=
  (npUnique envArr).enum.map fun p => (p.2, p.1)

/-- `SupportSet._combine_env_datasets`: `ConcatDataset` of the environment
datasets (concatenation in list order). -/
def combine_env_datasets (envDatasets : List (List (Int × Int))) :
    List (Int × Int) :=
  envDatasets.flatten

/-- The label array attached by `_combine_env_datasets`:
`np.concatenate([env.targets for env in self.env_datasets])`. -/
def combineTargets (envDatasets : List (List (Int × Int))) : List Int :=
  (envDatasets.map datasetTargets).flatten

/-- The three input shapes `SupportSet.__init__` dispatches on: a single
dataset plus an explicit per-item environment array, a list of
per-environment datasets, or a single dataset with no environment info. -/
inductive SupportInput
  | withEnv (data : List (Int × Int)) (env : List Int)
  | envList (datasets : List (List (Int × Int)))
  | plain (data : List (Int × Int))

/-- The state a constructed `SupportSet` carries: the attributes assigned
by `__init__` (`y_array`, `n_classes`, `env_array`, the combined dataset,
the per-environment datasets, `env_map`). -/
structure SupportSetModel where
  y_array : List Int
  n_classes : Nat
  env_array : List Int
  combined : List (Int × Int)
  envs : List (List (Int × Int))
  env_map : List (Int × Nat)
  deriving DecidableEq, Repr

/-- `SupportSet.__init__`.  The first statement,
`self.y_array = np.array(support_set.targets)`, runs before the
input-shape dispatch; for the list-of-datasets shape `support_set` is a
Python list, which has no `targets` attribute, so that path raises
`AttributeError` before any view is built.  The `env_array` shape keeps
the dataset as the combined view and separates the per-environment views;
the plain shape assigns every item environment id 0
(`np.zeros(len(support_set))`) and separates likewise. -/
def initSupportSet (data : List (Int × Int)) (env : List Int)
    (n_classes : Nat) : SupportSetModel :=
  { y_array := datasetTargets data
    n_classes := n_classes
    env_array := env
    combined := data
    envs := separate_env_datasets env data
    env_map := separate_env_map env }

/-- The full `SupportSet.__init__` dispatch over the three input shapes
(see the previous definition for the shared construction). -/
def mkSupportSet (input : SupportInput) (n_classes : Nat) :
    Except PyError SupportSetModel :=
  match input with
  | .withEnv data env =>
      .ok (initSupportSet data env n_classes)
  | .envList _ =>
      .error (.attributeError "targets")
  | .plain data =>
      .ok (initSupportSet data (List.replicate data.length 0) n_classes)

/-- The body of `SupportSetTrain._verify_sy` after the initial
`if self.train_type == 'unbalanced': pass` statement:
`unique_labels, counts = torch.unique(sy, return_counts=True)` (sorted
distinct labels with their multiplicities), then
`assert torch.equal(unique_labels, torch.arange(self.n_classes))`, then
`assert torch.equal(counts, torch.ones_like(unique_labels) * self.num_per_class)`.
The attribute `num_per_class` is never assigned anywhere on
`SupportSetTrain` (nor on its base class), so evaluating
`self.num_per_class` in the second assertion raises `AttributeError`
whenever the first assertion passes. -/
def verify_checks (n_classes : Nat) (sy : List Int) : Except PyError Unit :=
  let unique_labels := npUnique sy
  if unique_labels = (List.range n_classes).map Int.ofNat then
    .error (.attributeError "num_per_class")
  else
    .error .assertionViolation

/-- `SupportSetTrain._verify_sy`.  Its first statement is
`if self.train_type == 'unbalanced': pass` — the branch body is `pass`,
a no-op, so control falls through to the balance checks for every
`train_type`; both branches below are therefore identical. -/
def verify_sy (train_type : String) (n_classes : Nat) (sy : List Int) :
    Except PyError Unit :=
  if train_type = "unbalanced" then verify_checks n_classes sy
  else verify_checks n_classes sy

/-- Modelled from the spec: `InfiniteUniformClassLoader` (defined in
`nwhead/utils.py`, which is not under `src/`) — the balanced-sampler
collaborator.  It is built from a dataset view, a shot count and an
optional class-count restriction, holds internal iteration state, and each
draw yields a label-balanced batch of `n_shot` items per sampled class
(`n_way` classes when set, all classes otherwise). -/
structure Loader where
  data : List (Int × Int)
  n_shot : Nat
  n_way : Option Nat
  pos : Nat
  deriving DecidableEq, Repr

/-- Modelled from the spec: one draw of the balanced sampler.  Per the
spec the classes sampled are `n_way` of the view's classes (all of them
when `n_way` is unset) with `n_shot` items each; the draw is a function of
the loader's internal state only — under the `random` policy
`get_support` ignores its label and environment arguments, so the
optional target-label parameter of `next` does not influence the draw.
The concrete selection below (rotation by the internal position) is one
deterministic realisation of that contract. -/
def Loader.nextBatch (L : Loader) : List (Int × Int) × Loader :=
  let allClasses := npUnique (L.data.map Prod.snd)
  let classes :=
    match L.n_way with
    | none => allClasses
    | some w => (allClasses.rotate L.pos).take w
  ((classes.map fun c =>
      ((L.data.filter (fun p => p.2 = c)).rotate L.pos).take L.n_shot).flatten,
   { L with pos := L.pos + 1 })

/-- Modelled from the spec: `next(y)` with a target label.  The label
argument does not influence the draw (spec §4.2: under the `random`
policy `get_support` ignores its label/environment arguments). -/
def Loader.nextWith (L : Loader) (_y : Int) : List (Int × Int) × Loader :=
  L.nextBatch

/-- `SupportSetTrain.train_iter` as built by `_build_iter`: a single
loader over the combined view when `train_type == 'random'`, otherwise a
Python list of per-environment loaders. -/
inductive TrainIter
  | single (L : Loader)
  | perEnv (Ls : List Loader)
  deriving DecidableEq, Repr

/-- The attributes a constructed `SupportSetTrain` carries (`train_type`,
`n_shot`, `n_way`, `train_iter`, plus the base class's `n_classes` and
`env_map`; the dataset views are folded into the loaders).  Note there is
no `num_per_class` attribute: no method of the class ever assigns one. -/
structure TrainState where
  train_type : String
  n_classes : Nat
  n_shot : Nat
  n_way : Option Nat
  env_map : List (Int × Nat)
  train_iter : TrainIter
  deriving DecidableEq, Repr

/-- Dictionary lookup in `env_map` (`self.env_map[env_index[0].item()]`);
`none` models a Python `KeyError`. -/
def lookupEnv (m : List (Int × Nat)) (k : Int) : Option Nat :=
  (m.find? fun p => p.1 = k).map Prod.snd

/-- The tail of `SupportSetTrain.get_support` shared by every policy: with
probability 1/100 (`random.random() < 0.01`, modelled by the `coin`
argument) run `self._verify_sy(sy)`, then return `sx, sy, sm` (metadata is
omitted from the model; the batch is split into inputs and labels). -/
def afterDraw (st : TrainState) (coin : Bool) (batch : List (Int × Int))
    (it : TrainIter) : Except PyError ((List Int × List Int) × TrainState) :=
  let sy := batch.map Prod.snd
  if coin then
    match verify_sy st.train_type st.n_classes sy with
    | .error e => .error e
    | .ok _ => .ok ((batch.map Prod.fst, sy), { st with train_iter := it })
  else
    .ok ((batch.map Prod.fst, sy), { st with train_iter := it })

/-- `SupportSetTrain.get_support(y, env_index)`.  `mixmatch`: draw from a
uniformly chosen per-environment iterator (`np.random.choice`, modelled by
the `mixPick` argument).  `match`: assert that all entries of `env_index`
are equal to its first entry
(`assert torch.equal(env_index, torch.ones_like(env_index)*env_index[0])`,
the spec's PreconditionError; indexing an empty batch raises IndexError),
look the id up in `env_map` and draw from that environment's iterator.
Every other `train_type` takes the `else` branch
`sx, sy, sm = self.train_iter.next(y)`: for `random` the iterator is the
single combined loader; for `unbalanced` (and any other string)
`_build_iter` made `train_iter` a Python list, which has no `next`
attribute, so the call raises `AttributeError`. -/
def getSupportTrain (st : TrainState) (y : Int) (env_index : List Int)
    (coin : Bool) (mixPick : Nat) :
    Except PyError ((List Int × List Int) × TrainState) :=
  if st.train_type = "mixmatch" then
    match st.train_iter with
    | .single _ => .error (.runtimeError "np.random.choice: not a sequence")
    | .perEnv Ls =>
        if h : Ls.length = 0 then
          .error (.runtimeError "np.random.choice: empty sequence")
        else
          let i := mixPick % Ls.length
          let drawn := (Ls.get ⟨i, Nat.mod_lt _ (Nat.pos_of_ne_zero h)⟩).nextBatch
          afterDraw st coin drawn.1 (.perEnv (Ls.set i drawn.2))
  else if st.train_type = "match" then
    match env_index with
    | [] => .error .indexError
    | e :: _ =>
        if env_index.all (fun v => v = e) then
          match lookupEnv st.env_map e with
          | none => .error .keyError
          | some i =>
              match st.train_iter with
              | .single _ => .error (.runtimeError "loader is not subscriptable")
              | .perEnv Ls =>
                  if h : i < Ls.length then
                    let drawn := (Ls.get ⟨i, h⟩).nextBatch
                    afterDraw st coin drawn.1 (.perEnv (Ls.set i drawn.2))
                  else .error .indexError
        else .error (.preconditionError "env_index mismatch")
  else
    match st.train_iter with
    | .single L =>
        let drawn := L.nextWith y
        afterDraw st coin drawn.1 (.single drawn.2)
    | .perEnv _ => .error (.attributeError "next")

/-- The value `SupportSetEval.get_support` returns: a feature/label batch,
or (for `ensemble`) the per-environment feature/label lists. -/
inductive EvalResult
  | batch (sfeat : List Int) (sy : List Int)
  | perEnvR (sfeat : List (List Int)) (sy : List (List Int))

/-- The attributes of a `SupportSetEval`.  The constructor assigns only
the four shot/neighbor parameters (besides the base class state); the
remaining attributes are assigned by `build_infer_iters`, so before that
call they are absent (`none`), and reading them raises `AttributeError`.
Features are opaque integer tokens; the two neighbor indexes are opaque
query functions that may themselves fail. -/
structure EvalState where
  base : SupportSetModel
  n_shot_random : Nat
  n_shot_full : Nat
  n_shot_cluster : Nat
  n_neighbors : Nat
  full_feat : Option (List Int)
  full_y : Option (List Int)
  full_feat_sep : Option (List (List Int))
  full_y_sep : Option (List (List Int))
  cluster_feat : Option (List Int)
  cluster_y : Option (List Int)
  random_iter : Option Loader
  knn : Option (Option Int → Except PyError (List Int × List Int))
  hnsw : Option (Option Int → Except PyError (List Int × List Int))

/-- `SupportSetEval.__init__`: build the base support set, store the four
parameters; none of the precompute attributes exist yet.  (The
`support_loaders` built by `_build_full_loader` feed the external feature
extraction and play no part in `get_support`; they are omitted.) -/
def mkEvalState (input : SupportInput) (n_classes : Nat)
    (n_shot_random n_shot_full n_shot_cluster n_neighbors : Nat) :
    Except PyError EvalState :=
  (mkSupportSet input n_classes).map fun b =>
    { base := b
      n_shot_random := n_shot_random
      n_shot_full := n_shot_full
      n_shot_cluster := n_shot_cluster
      n_neighbors := n_neighbors
      full_feat := none
      full_y := none
      full_feat_sep := none
      full_y_sep := none
      cluster_feat := none
      cluster_y := none
      random_iter := none
      knn := none
      hnsw := none }

/-- The `try` body of `SupportSetEval.get_support(mode, x)`: the dispatch
on the six supported modes, reading the attributes `build_infer_iters`
assigns (a read of an absent attribute raises `AttributeError` naming the
attribute), and `raise NotImplementedError` (the spec's
UnsupportedModeError) for any other mode string. -/
def evalGetSupportBody (st : EvalState) (mode : String) (x : Option Int) :
    Except PyError (EvalResult × EvalState) :=
  if mode = "random" then
    match st.random_iter with
    | none => .error (.attributeError "random_iter")
    | some it =>
        let drawn := it.nextBatch
        .ok (.batch (drawn.1.map Prod.fst) (drawn.1.map Prod.snd),
             { st with random_iter := some drawn.2 })
  else if mode = "full" then
    match st.full_feat with
    | none => .error (.attributeError "full_feat")
    | some f =>
        match st.full_y with
        | none => .error (.attributeError "full_y")
        | some yv => .ok (.batch f yv, st)
  else if mode = "cluster" then
    match st.cluster_feat with
    | none => .error (.attributeError "cluster_feat")
    | some f =>
        match st.cluster_y with
        | none => .error (.attributeError "cluster_y")
        | some yv => .ok (.batch f yv, st)
  else if mode = "ensemble" then
    match st.full_feat_sep with
    | none => .error (.attributeError "full_feat_sep")
    | some f =>
        match st.full_y_sep with
        | none => .error (.attributeError "full_y_sep")
        | some yv => .ok (.perEnvR f yv, st)
  else if mode = "knn" then
    match st.knn with
    | none => .error (.attributeError "knn")
    | some fn =>
        match fn x with
        | .error e => .error e
        | .ok fy => .ok (.batch fy.1 fy.2, st)
  else if mode = "hnsw" then
    match st.hnsw with
    | none => .error (.attributeError "hnsw")
    | some fn =>
        match fn x with
        | .error e => .error e
        | .ok fy => .ok (.batch fy.1 fy.2, st)
  else
    .error .unsupportedModeError

/-- `SupportSetEval.get_support`: the dispatch body wrapped in
`try ... except AttributeError: raise AttributeError('Did you run precompute()?')`
— any `AttributeError` escaping the body is replaced by the deliberate
not-precomputed error (the spec's PreconditionError); every other outcome
passes through unchanged. -/
def evalGetSupport (st : EvalState) (mode : String) (x : Option Int) :
    Except PyError (EvalResult × EvalState) :=
  match evalGetSupportBody st mode x with
  | .error (.attributeError _) =>
      .error (.preconditionError "Did you run precompute()?")
  | r => r

/-- Discriminator for Python `AttributeError` values. -/
def isAttributeError : PyError → Bool
  | .attributeError _ => true
  | _ => false

/-- `embeddings[labels==c]`: the feature vectors at the positions whose
label equals `c`, in position order. -/
def selectClass {F : Type} (emb : List F) (labels : List Int) (c : Int) :
    List F :=
  ((labels.zip emb).filter (fun p => p.1 = c)).map Prod.snd

/-- `SupportSetEval._compute_clusters` on the `closest=False` path (the
default, and the one its only call site uses): for each distinct label of
the full label set in ascending order, run the clustering collaborator
(`KMeans(...).fit(...).cluster_centers_`, the spec's black-box clustering
primitive, passed in as `km`) on that class's feature vectors to obtain
`n_clusters = self.n_shot_cluster` centroids; concatenate the centroids
across classes and repeat each label `n_clusters` times alongside. -/
def compute_clusters {F : Type} (km : List F → Nat → List F)
    (embeddings : List F) (labels : List Int) (n_clusters : Nat) :
    List F × List Int :=
  (((npUnique labels).map fun c =>
      km (selectClass embeddings labels c) n_clusters).flatten,
   ((npUnique labels).map fun c => List.replicate n_clusters c).flatten)

/-! Concrete states used to exercise the operations above. -/

/-- A concrete `random`-policy training state. -/
def trainStRandom : TrainState :=
  { train_type := "random", n_classes := 2, n_shot := 1, n_way := none,
    env_map := [(0, 0)],
    train_iter := TrainIter.single
      { data := [(0, 0), (1, 1)], n_shot := 1, n_way := none, pos := 0 } }

/-- A concrete `match`-policy training state whose `env_map` sends raw
environment id 2 to dense index 1 (as arises from raw ids {0, 2}). -/
def trainStMatch : TrainState :=
  { train_type := "match", n_classes := 2, n_shot := 1, n_way := none,
    env_map := [(0, 0), (2, 1)],
    train_iter := TrainIter.perEnv
      [{ data := [(10, 0), (11, 1)], n_shot := 1, n_way := none, pos := 0 },
       { data := [(20, 0), (21, 1)], n_shot := 1, n_way := none, pos := 0 }] }

/-- The state `trainStMatch` reaches after one `match`-policy draw from
environment 1: that environment's loader has advanced its position. -/
def trainStMatchAfter : TrainState :=
  { train_type := "match", n_classes := 2, n_shot := 1, n_way := none,
    env_map := [(0, 0), (2, 1)],
    train_iter := TrainIter.perEnv
      [{ data := [(10, 0), (11, 1)], n_shot := 1, n_way := none, pos := 0 },
       { data := [(20, 0), (21, 1)], n_shot := 1, n_way := none, pos := 1 }] }

/-- A freshly constructed evaluation provider over a one-item dataset. -/
def evalFresh : EvalState :=
  { base := initSupportSet [(0, 0)] (List.replicate 1 0) 1
    n_shot_random := 1
    n_shot_full := 1
    n_shot_cluster := 1
    n_neighbors := 1
    full_feat := none
    full_y := none
    full_feat_sep := none
    full_y_sep := none
    cluster_feat := none
    cluster_y := none
    random_iter := none
    knn := none
    hnsw := none }

/-- A precomputed provider whose `knn` index raises
`AttributeError('boom')` when queried. -/
def evalKnnBoom : EvalState :=
  { evalFresh with
    full_feat := some [3]
    full_y := some [0]
    knn := some fun _ => Except.error (PyError.attributeError "boom") }

/-- A precomputed provider whose `knn` index raises a non-AttributeError
runtime failure when queried. -/
def evalKnnRuntime : EvalState :=
  { evalFresh with
    full_feat := some [3]
    full_y := some [0]
    knn := some fun _ => Except.error (PyError.runtimeError "index failure") }

/-! Helper lemmas about `npUnique` and key-grouped partitions. -/

lemma npUnique_nodup (l : List Int) : (npUnique l).Nodup :=
  (List.perm_insertionSort _ _).nodup_iff.mpr (List.nodup_dedup l)

lemma npUnique_sorted (l : List Int) : (npUnique l).Sorted (· ≤ ·) :=
  List.sorted_insertionSort _ _

lemma mem_npUnique {a : Int} {l : List Int} : a ∈ npUnique l ↔ a ∈ l :=
  (List.perm_insertionSort _ _).mem_iff.trans List.mem_dedup

lemma sorted_nodup_ext {l1 l2 : List Int} (hs1 : l1.Sorted (· ≤ ·))
    (hs2 : l2.Sorted (· ≤ ·)) (hn1 : l1.Nodup) (hn2 : l2.Nodup)
    (hm : ∀ x, x ∈ l1 ↔ x ∈ l2) : l1 = l2 :=
  List.eq_of_perm_of_sorted ((List.perm_ext_iff_of_nodup hn1 hn2).mpr hm) hs1 hs2

lemma npUnique_cons_min {a : Int} {ks : List Int} (hmin : ∀ k ∈ ks, a ≤ k) :
    npUnique (a :: ks) = a :: npUnique (ks.filter (fun k => k ≠ a)) := by
  apply sorted_nodup_ext (npUnique_sorted _) _ (npUnique_nodup _)
  · rw [List.nodup_cons]
    refine ⟨fun hmem => ?_, npUnique_nodup _⟩
    have := mem_npUnique.mp hmem
    simp only [List.mem_filter, decide_eq_true_eq] at this
    exact this.2 rfl
  · intro x
    rw [mem_npUnique, List.mem_cons, List.mem_cons, mem_npUnique,
      List.mem_filter]
    by_cases hx : x = a
    · simp [hx]
    · simp [hx]
  · rw [List.sorted_cons]
    refine ⟨fun b hb => ?_, npUnique_sorted _⟩
    have := mem_npUnique.mp hb
    simp only [List.mem_filter, decide_eq_true_eq] at this
    exact hmin b this.1

lemma flatten_filter_perm {β : Type} (us : List Int) (l : List (Int × β))
    (hnd : us.Nodup) (hcov : ∀ p ∈ l, p.1 ∈ us) :
    ((us.map fun a => l.filter (fun p => p.1 = a)).flatten).Perm l := by
  induction us generalizing l with
  | nil =>
      have : l = [] := by
        cases l with
        | nil => rfl
        | cons p t => exact absurd (hcov p (List.mem_cons_self p t)) (by simp)
      simp [this]
  | cons u us ih =>
      rw [List.nodup_cons] at hnd
      have hrw : (us.map fun a => l.filter (fun p => p.1 = a)) =
          us.map fun a => (l.filter (fun p => p.1 ≠ u)).filter (fun p => p.1 = a) := by
        refine List.map_congr_left fun a ha => ?_
        rw [List.filter_filter]
        refine (List.filter_congr fun x _ => ?_).symm
        by_cases hxa : x.1 = a
        · have hau : ¬a = u := fun h => hnd.1 (h ▸ ha)
          have hne : x.1 ≠ u := by rw [hxa]; exact hau
          simp [hxa, hne, hau]
        · simp [hxa]
      have hcov2 : ∀ p ∈ l.filter (fun p => p.1 ≠ u), p.1 ∈ us := by
        intro p hp
        simp only [List.mem_filter, decide_eq_true_eq] at hp
        rcases List.mem_cons.mp (hcov p hp.1) with h | h
        · exact absurd h hp.2
        · exact h
      have h1 : ((u :: us).map fun a => l.filter (fun p => p.1 = a)).flatten =
          l.filter (fun p => p.1 = u) ++
            ((us.map fun a => (l.filter (fun p => p.1 ≠ u)).filter
              (fun p => p.1 = a)).flatten) := by
        simp only [List.map_cons, List.flatten_cons, hrw]
      rw [h1]
      refine List.Perm.trans ((ih _ hnd.2 hcov2).append_left _) ?_
      have hfinal := List.filter_append_perm (fun p => decide (p.1 = u)) l
      refine List.Perm.trans ?_ hfinal
      apply List.Perm.append_left
      apply List.Perm.of_eq
      refine List.filter_congr fun x _ => ?_
      by_cases hx : x.1 = u <;> simp [hx]

lemma sum_filter_len {β : Type} (l : List (Int × β)) :
    ((npUnique (l.map Prod.fst)).map fun a =>
      (l.filter (fun p => p.1 = a)).length).sum = l.length := by
  have hperm := flatten_filter_perm (npUnique (l.map Prod.fst)) l
    (npUnique_nodup _)
    (fun p hp => mem_npUnique.mpr (List.mem_map_of_mem Prod.fst hp))
  have := hperm.length_eq
  rw [List.length_flatten, List.map_map] at this
  simpa [Function.comp] using this

lemma grouped_filter_append {β : Type} (a : Int) (t : List (Int × β))
    (hs : (t.map Prod.fst).Sorted (· ≤ ·)) (hmin : ∀ p ∈ t, a ≤ p.1) :
    t.filter (fun p => p.1 = a) ++ t.filter (fun p => p.1 ≠ a) = t := by
  induction t with
  | nil => rfl
  | cons hd t ih =>
      rw [List.map_cons, List.sorted_cons] at hs
      by_cases hka : hd.1 = a
      · have h1 : List.filter (fun p => decide (p.1 = a)) (hd :: t) =
            hd :: t.filter (fun p => p.1 = a) := by
          simp [List.filter_cons, hka]
        have h2 : List.filter (fun p => decide (p.1 ≠ a)) (hd :: t) =
            t.filter (fun p => p.1 ≠ a) := by
          simp [List.filter_cons, hka]
        rw [h1, h2, List.cons_append]
        rw [ih hs.2 fun p hp => hmin p (List.mem_cons_of_mem hd hp)]
      · have hlt : ∀ p ∈ hd :: t, p.1 ≠ a := by
          intro p hp hpa
          rcases List.mem_cons.mp hp with h | h
          · exact hka (h ▸ hpa)
          · have h1 : a ≤ hd.1 := hmin hd (List.mem_cons_self hd t)
            have h2 : hd.1 ≤ p.1 := hs.1 p.1 (List.mem_map_of_mem Prod.fst h)
            have h3 : hd.1 ≤ a := hpa ▸ h2
            exact hka (le_antisymm h3 h1)
        have h1 : List.filter (fun p => decide (p.1 = a)) (hd :: t) = [] := by
          rw [List.filter_eq_nil_iff]
          intro p hp
          simp [hlt p hp]
        have h2 : List.filter (fun p => decide (p.1 ≠ a)) (hd :: t) = hd :: t := by
          rw [List.filter_eq_self]
          intro p hp
          simp [hlt p hp]
        rw [h1, h2, List.nil_append]

lemma flatten_filter_eq_of_sorted {β : Type} :
    ∀ (n : Nat) (l : List (Int × β)), l.length ≤ n →
      (l.map Prod.fst).Sorted (· ≤ ·) →
      ((npUnique (l.map Prod.fst)).map fun a =>
        l.filter (fun p => p.1 = a)).flatten = l := by
  intro n
  induction n with
  | zero =>
      intro l hl _
      rw [List.length_eq_zero.mp (Nat.le_zero.mp hl)]
      rfl
  | succ n ih =>
      intro l hl hs
      cases l with
      | nil => rfl
      | cons hd t =>
          rw [List.map_cons, List.sorted_cons] at hs
          have hmin_t : ∀ p ∈ t, hd.1 ≤ p.1 :=
            fun p hp => hs.1 p.1 (List.mem_map_of_mem Prod.fst hp)
          have hu : npUnique ((hd :: t).map Prod.fst) =
              hd.1 :: npUnique ((t.map Prod.fst).filter (fun k => k ≠ hd.1)) := by
            rw [List.map_cons]
            exact npUnique_cons_min hs.1
          have hfm : (t.map Prod.fst).filter (fun k => k ≠ hd.1) =
              (t.filter (fun p => p.1 ≠ hd.1)).map Prod.fst := by
            rw [List.filter_map]
            rfl
          set l2 := t.filter (fun p => p.1 ≠ hd.1) with hl2
          have hlen2 : l2.length ≤ n :=
            le_trans (List.length_filter_le _ t) (Nat.succ_le_succ_iff.mp hl)
          have hs2 : (l2.map Prod.fst).Sorted (· ≤ ·) := by
            rw [hl2, ← hfm]
            exact List.Pairwise.filter _ hs.2
          have hih := ih l2 hlen2 hs2
          have hsame : ∀ a ∈ npUnique (l2.map Prod.fst),
              (hd :: t).filter (fun p => p.1 = a) = l2.filter (fun p => p.1 = a) := by
            intro a ha
            have hane : a ≠ hd.1 := by
              have := mem_npUnique.mp ha
              rw [hl2] at this
              rcases List.mem_map.mp this with ⟨p, hp, hpa⟩
              simp only [List.mem_filter, decide_eq_true_eq] at hp
              rw [← hpa]
              exact hp.2
            have hhd : List.filter (fun p => decide (p.1 = a)) (hd :: t) =
                t.filter (fun p => p.1 = a) := by
              rw [List.filter_cons]
              simp [Ne.symm hane]
            rw [hhd, hl2, List.filter_filter]
            refine List.filter_congr fun x _ => ?_
            by_cases hxa : x.1 = a
            · have hxh : x.1 ≠ hd.1 := hxa ▸ hane
              simp [hxa, hxh, hane]
            · simp [hxa]
          rw [hu, List.map_cons, List.flatten_cons, hfm,
            List.map_congr_left hsame, hih]
          have hhd1 : List.filter (fun p => decide (p.1 = hd.1)) (hd :: t) =
              hd :: t.filter (fun p => p.1 = hd.1) := by
            simp [List.filter_cons]
          rw [hhd1, List.cons_append, hl2,
            grouped_filter_append hd.1 t hs.2 hmin_t]

/-! Derived facts used by several claims. -/

lemma flatten_map_map {α β : Type} (us : List Int) (f : Int → List α) (g : α → β) :
    (us.map fun a => (f a).map g).flatten = ((us.map f).flatten).map g := by
  rw [List.map_flatten, List.map_map]
  rfl

lemma sum_env_lengths (env : List Int) (data : List (Int × Int))
    (hlen : env.length = data.length) :
    ((separate_env_datasets env data).map List.length).sum = data.length := by
  unfold separate_env_datasets
  rw [List.map_map]
  have hfst : (env.zip data).map Prod.fst = env :=
    List.map_fst_zip env data (le_of_eq hlen)
  have hpt : (npUnique env).map
        (List.length ∘ fun a => ((env.zip data).filter (fun p => p.1 = a)).map Prod.snd) =
      (npUnique env).map
        (fun a => ((env.zip data).filter (fun p => p.1 = a)).length) := by
    refine List.map_congr_left fun a _ => ?_
    simp [Function.comp]
  have hsum := sum_filter_len (β := Int × Int) (env.zip data)
  rw [hfst] at hsum
  rw [hpt, hsum, List.length_zip, hlen, min_self]

/-- Claim C1 (code-bug evidence).  The claim says that under the
`unbalanced` policy the one-in-a-hundred label self-check is skipped and
the sampled batch is returned unverified.  In the code the skip branch is
`if self.train_type == 'unbalanced': pass` — a no-op that falls through —
so `_verify_sy` runs its balance assertions for `unbalanced` too (first
conjunct: an unbalanced batch `[0,0]` with two classes raises the
assertion); moreover `get_support` under `unbalanced` never even reaches
the check, because `_build_iter` made `train_iter` a Python list and
`self.train_iter.next(y)` raises `AttributeError` (second conjunct). -/
theorem claim_C1_unbalanced_check_runs :
    verify_sy "unbalanced" 2 [0, 0] = Except.error PyError.assertionViolation ∧
    getSupportTrain
      { train_type := "unbalanced", n_classes := 2, n_shot := 1, n_way := none,
        env_map := [(0, 0)],
        train_iter := TrainIter.perEnv
          [{ data := [(0, 0), (1, 1)], n_shot := 1, n_way := none, pos := 0 }] }
      0 [0] true 0 = Except.error (PyError.attributeError "next") := by
  exact ⟨by decide, by decide⟩

/-- Claim C10: whenever `_verify_sy` runs and its first assertion passes
(the sorted unique sampled labels equal `0..n_classes-1`), the call raises
`AttributeError`, because the count comparison reads `self.num_per_class`,
which no method of the class ever assigns; the audit can never complete
successfully, for any `train_type`. -/
theorem claim_C10_audit_always_raises (train_type : String) (n_classes : Nat)
    (sy : List Int) (h : npUnique sy = (List.range n_classes).map Int.ofNat) :
    verify_sy train_type n_classes sy =
      Except.error (PyError.attributeError "num_per_class") := by
  unfold verify_sy verify_checks
  split <;> simp [h]

/-- Witness for C10 at the concrete batch `[0, 1]` with two classes. -/
theorem claim_C10_witness :
    npUnique [0, 1] = (List.range 2).map Int.ofNat ∧
    verify_sy "random" 2 [0, 1] =
      Except.error (PyError.attributeError "num_per_class") :=
  ⟨by decide, claim_C10_audit_always_raises "random" 2 [0, 1] (by decide)⟩

/-- Counterexample to claim C3 as stated: for the dataset
`[(0,10),(1,20)]` with environment array `[1, 0]`, separating into
per-environment views and recombining yields the label array `[20, 10]`,
not the original `[10, 20]` — the recombination concatenates the groups
in ascending environment order, not in original position order. -/
theorem claim_C3_counterexample :
    combineTargets (separate_env_datasets [1, 0] [(0, 10), (1, 20)]) = [20, 10] ∧
    datasetTargets [(0, 10), (1, 20)] = [10, 20] ∧
    combineTargets (separate_env_datasets [1, 0] [(0, 10), (1, 20)]) ≠
      datasetTargets [(0, 10), (1, 20)] :=
  ⟨by decide, by decide, by decide⟩

/-- Claim C3 as amended: the round-trip (separation followed by the
explicit recombination path) reproduces the original combined label array
element by element whenever the environment array is non-decreasing, i.e.
the items are already grouped by ascending environment id. -/
theorem claim_C3_roundtrip_of_sorted (data : List (Int × Int)) (env : List Int)
    (hlen : env.length = data.length) (hs : env.Sorted (· ≤ ·)) :
    combineTargets (separate_env_datasets env data) = datasetTargets data := by
  have hle1 : env.length ≤ data.length := le_of_eq hlen
  have hle2 : data.length ≤ env.length := le_of_eq hlen.symm
  have hfst : (env.zip data).map Prod.fst = env := List.map_fst_zip env data hle1
  have hsnd : (env.zip data).map Prod.snd = data := List.map_snd_zip env data hle2
  have hs2 : ((env.zip data).map Prod.fst).Sorted (· ≤ ·) := by
    rw [hfst]; exact hs
  have key := flatten_filter_eq_of_sorted (env.zip data).length (env.zip data)
    le_rfl hs2
  rw [hfst] at key
  unfold combineTargets separate_env_datasets datasetTargets
  rw [List.map_map]
  have hcomp : ((fun d : List (Int × Int) => d.map Prod.snd) ∘
        fun a => ((env.zip data).filter (fun p => p.1 = a)).map Prod.snd) =
      fun a => (((env.zip data).filter (fun p => p.1 = a)).map Prod.snd).map Prod.snd := rfl
  rw [hcomp,
    flatten_map_map (npUnique env)
      (fun a => ((env.zip data).filter (fun p => p.1 = a)).map Prod.snd) Prod.snd,
    flatten_map_map (npUnique env)
      (fun a => (env.zip data).filter (fun p => p.1 = a)) Prod.snd,
    key, hsnd]

/-- Witness for the amended C3 at a concrete grouped input. -/
theorem claim_C3_witness :
    ([(0 : Int), 0, 1].length = [((1 : Int), (5 : Int)), (2, 6), (3, 7)].length) ∧
    List.Sorted (· ≤ ·) [(0 : Int), 0, 1] ∧
    combineTargets (separate_env_datasets [0, 0, 1] [(1, 5), (2, 6), (3, 7)]) =
      datasetTargets [(1, 5), (2, 6), (3, 7)] :=
  ⟨by decide, by decide,
    claim_C3_roundtrip_of_sorted [(1, 5), (2, 6), (3, 7)] [0, 0, 1]
      (by decide) (by decide)⟩

/-- Claim C8 (code-bug evidence).  The claim says all three constructor
shapes yield views with `len(combined) == sum(len(e) for e in envs)`.
For the list-of-datasets shape the constructor never gets that far:
`self.y_array = np.array(support_set.targets)` runs before the shape
dispatch and a Python list has no `targets` attribute, so construction
raises `AttributeError` (first conjunct, at a concrete two-dataset list).
For the two shapes that do construct, the invariant holds (second and
third conjuncts). -/
theorem claim_C8_len_invariant :
    (mkSupportSet (SupportInput.envList [[(0, 0)], [(1, 1)]]) 2 =
      Except.error (PyError.attributeError "targets")) ∧
    (∀ (data : List (Int × Int)) (env : List Int) (n : Nat) (m : SupportSetModel),
      env.length = data.length →
      mkSupportSet (SupportInput.withEnv data env) n = Except.ok m →
      m.combined.length = (m.envs.map List.length).sum) ∧
    (∀ (data : List (Int × Int)) (n : Nat) (m : SupportSetModel),
      mkSupportSet (SupportInput.plain data) n = Except.ok m →
      m.combined.length = (m.envs.map List.length).sum) := by
  refine ⟨by decide, ?_, ?_⟩
  · intro data env n m hlen hok
    have hm : m = initSupportSet data env n := (Except.ok.inj hok).symm
    rw [hm]
    exact (sum_env_lengths env data hlen).symm
  · intro data n m hok
    have hm : m = initSupportSet data (List.replicate data.length 0) n :=
      (Except.ok.inj hok).symm
    rw [hm]
    exact (sum_env_lengths _ data (by simp)).symm

/-- Witness for C8 at a concrete two-item, two-environment input. -/
theorem claim_C8_witness :
    (initSupportSet [(5, 7), (6, 8)] [0, 1] 2).combined.length =
      ((initSupportSet [(5, 7), (6, 8)] [0, 1] 2).envs.map List.length).sum :=
  claim_C8_len_invariant.2.1 [(5, 7), (6, 8)] [0, 1] 2 _ (by decide) (by decide)

/-- Claim C2: under the `random` policy, `get_support` ignores both its
label argument `y` and its environment-id argument `env_index`: with the
same internal sampler state (and the same audit coin and mixmatch draw),
the call performs the same sampler operation and returns the same result.
The environment argument is unused by the source's `else` branch; the
label argument is forwarded to `train_iter.next(y)`, whose draw is
modelled from the spec as independent of the target label (§4.2). -/
theorem claim_C2_random_ignores_args (st : TrainState)
    (h : st.train_type = "random") (y1 y2 : Int) (e1 e2 : List Int)
    (coin : Bool) (mix : Nat) :
    getSupportTrain st y1 e1 coin mix = getSupportTrain st y2 e2 coin mix := by
  obtain ⟨tt, nc, ns, nw, em, ti⟩ := st
  have h2 : tt = "random" := h
  subst h2
  cases ti <;> rfl

/-- Witness for C2: two calls with different labels and environment ids
agree on a concrete `random`-policy state. -/
theorem claim_C2_witness :
    getSupportTrain trainStRandom 0 [] false 0 =
      getSupportTrain trainStRandom 5 [1, 2] false 0 :=
  claim_C2_random_ignores_args trainStRandom rfl 0 5 [] [1, 2] false 0

/-- Claim C5: under the `match` policy, a batch of environment ids that
are not all identical fails with the spec's PreconditionError (the
`assert torch.equal(env_index, torch.ones_like(env_index)*env_index[0])`),
and when they are all identical the batch is drawn from exactly the
per-environment sampler at the dense index `env_map` assigns to that id
(stated on the non-audit path, `coin = false`). -/
theorem claim_C5_match_policy (st : TrainState) (h : st.train_type = "match")
    (Ls : List Loader) (hiter : st.train_iter = TrainIter.perEnv Ls)
    (y : Int) (e : Int) (rest : List Int) (mix : Nat) :
    ((e :: rest).all (fun v => v = e) = false →
      ∀ coin, getSupportTrain st y (e :: rest) coin mix =
        Except.error (PyError.preconditionError "env_index mismatch")) ∧
    (∀ i, ∀ hi : i < Ls.length, (e :: rest).all (fun v => v = e) = true →
      lookupEnv st.env_map e = some i →
      getSupportTrain st y (e :: rest) false mix =
        Except.ok (((Ls.get ⟨i, hi⟩).nextBatch.1.map Prod.fst,
                    (Ls.get ⟨i, hi⟩).nextBatch.1.map Prod.snd),
          { st with train_iter :=
              TrainIter.perEnv (Ls.set i (Ls.get ⟨i, hi⟩).nextBatch.2) })) := by
  obtain ⟨tt, nc, ns, nw, em, ti⟩ := st
  have h2 : tt = "match" := h
  subst h2
  have h3 : ti = TrainIter.perEnv Ls := hiter
  subst h3
  constructor
  · intro hall coin
    unfold getSupportTrain
    simp [hall]
  · intro i hi hall hlook
    have hlook2 : lookupEnv em e = some i := hlook
    unfold getSupportTrain
    simp [hall, hlook2, hi, afterDraw]

/-- Witness for C5, the spec's own example: environment ids `[2,2,2]`
mapped to dense index 1 draw from environment 1's sampler (items 20, 21);
mixed ids `[1,2]` fail with the precondition error. -/
theorem claim_C5_witness :
    (getSupportTrain trainStMatch 0 [1, 2] true 0 =
      Except.error (PyError.preconditionError "env_index mismatch")) ∧
    (getSupportTrain trainStMatch 0 [2, 2, 2] false 0 =
      Except.ok ((([20, 21] : List Int), ([0, 1] : List Int)),
        trainStMatchAfter)) :=
  ⟨(claim_C5_match_policy trainStMatch rfl _ rfl 0 1 [2] 0).1 (by decide) true,
   (claim_C5_match_policy trainStMatch rfl _ rfl 0 2 [2, 2] 0).2 1 (by decide)
     (by decide) (by decide)⟩

/-- Claim C6: for every supported mode, calling
`SupportSetEval.get_support` on a freshly constructed provider — before
`build_infer_iters` has run — fails with the deliberate not-precomputed
precondition error (the internal missing-attribute error is caught and
replaced; no raw internal attribute error escapes). -/
theorem claim_C6_before_precompute (m : String)
    (hm : m ∈ ["random", "full", "cluster", "ensemble", "knn", "hnsw"])
    (input : SupportInput) (nc a b c d : Nat) (st : EvalState)
    (hst : mkEvalState input nc a b c d = Except.ok st) (x : Option Int) :
    evalGetSupport st m x =
      Except.error (PyError.preconditionError "Did you run precompute()?") := by
  cases hbase : mkSupportSet input nc with
  | error e =>
      rw [mkEvalState, hbase] at hst
      exact absurd hst (by simp [Except.map])
  | ok b0 =>
      rw [mkEvalState, hbase] at hst
      simp only [Except.map] at hst
      have hst2 := (Except.ok.inj hst).symm
      subst hst2
      simp only [List.mem_cons, List.mem_singleton] at hm
      rcases hm with rfl | rfl | rfl | rfl | rfl | rfl | hm
      · rfl
      · rfl
      · rfl
      · rfl
      · rfl
      · rfl
      · exact absurd hm (List.not_mem_nil m)

/-- Witness for C6 at mode `random` on the fresh provider. -/
theorem claim_C6_witness :
    evalGetSupport evalFresh "random" none =
      Except.error (PyError.preconditionError "Did you run precompute()?") :=
  claim_C6_before_precompute "random" (by decide)
    (SupportInput.plain [(0, 0)]) 1 1 1 1 1 evalFresh rfl none

/-- Claim C7: `SupportSetEval.get_support` with any mode outside
{random, full, cluster, ensemble, knn, hnsw} fails with the spec's
UnsupportedModeError (Python `raise NotImplementedError`), in every
provider state. -/
theorem claim_C7_unsupported_mode (st : EvalState) (m : String)
    (hm : m ∉ ["random", "full", "cluster", "ensemble", "knn", "hnsw"])
    (x : Option Int) :
    evalGetSupport st m x = Except.error PyError.unsupportedModeError := by
  simp only [List.mem_cons, List.mem_singleton, not_or] at hm
  obtain ⟨h1, h2, h3, h4, h5, h6, -⟩ := hm
  unfold evalGetSupport evalGetSupportBody
  simp [h1, h2, h3, h4, h5, h6]

/-- Witness for C7 at the unknown mode string `bogus`. -/
theorem claim_C7_witness :
    evalGetSupport evalFresh "bogus" none =
      Except.error PyError.unsupportedModeError :=
  claim_C7_unsupported_mode evalFresh "bogus" (by decide) none

/-- Counterexample to claim C9 as stated: a handler error of Python class
`AttributeError` does NOT propagate unchanged — the surrounding
`except AttributeError` clause of `get_support` catches it and replaces it
with the not-precomputed error.  Concretely, on a provider whose `knn`
index raises `AttributeError('boom')`, the dispatch body produces that
error but `get_support` returns the precondition error instead. -/
theorem claim_C9_counterexample :
    evalGetSupportBody evalKnnBoom "knn" none =
      Except.error (PyError.attributeError "boom") ∧
    evalGetSupport evalKnnBoom "knn" none ≠
      Except.error (PyError.attributeError "boom") := by
  constructor
  · rfl
  · have h1 : evalGetSupport evalKnnBoom "knn" none =
        Except.error (PyError.preconditionError "Did you run precompute()?") := rfl
    rw [h1]
    intro hcontra
    exact absurd (Except.error.inj hcontra) (by decide)

/-- Claim C9 as amended: every handler error that is not of Python class
`AttributeError` propagates unchanged to the caller; a handler error of
class `AttributeError` is caught by the precompute guard and replaced by
the not-precomputed precondition error. -/
theorem claim_C9_error_propagation (st : EvalState) (m : String)
    (x : Option Int) (e : PyError)
    (hbody : evalGetSupportBody st m x = Except.error e) :
    (isAttributeError e = false → evalGetSupport st m x = Except.error e) ∧
    (isAttributeError e = true → evalGetSupport st m x =
      Except.error (PyError.preconditionError "Did you run precompute()?")) := by
  unfold evalGetSupport
  rw [hbody]
  cases e <;> simp [isAttributeError]

/-- Witness for the amended C9: a non-AttributeError handler error (a
runtime failure of the knn index) reaches the caller unchanged. -/
theorem claim_C9_witness :
    isAttributeError (PyError.runtimeError "index failure") = false ∧
    evalGetSupport evalKnnRuntime "knn" none =
      Except.error (PyError.runtimeError "index failure") :=
  ⟨rfl,
    (claim_C9_error_propagation evalKnnRuntime "knn" none
      (PyError.runtimeError "index failure") rfl).1 rfl⟩

lemma sum_map_const {α : Type} (l : List α) (k : Nat) :
    (l.map fun _ => k).sum = l.length * k := by
  induction l with
  | nil => simp
  | cons a t ih => simp [ih, Nat.succ_mul, Nat.add_comm]

/-- Claim C4: after precompute, the cluster prototype set contains, for
each class label present in the full label set taken in ascending order,
exactly `n_shot_cluster` prototype vectors concatenated contiguously,
with the label array repeating each label `n_shot_cluster` times in the
same contiguous ascending order (first conjunct, for any label set); when
every class `0..n_classes-1` is present, the prototype feature count is
`n_classes * n_shot_cluster` and the label array is the ascending
blocks `[0,...,0, 1,...,1, ...]` (remaining conjuncts).  The clustering
collaborator is assumed to return exactly the requested number of
centroids, per the spec's clustering-primitive contract. -/
theorem claim_C4_cluster_prototypes {F : Type} (km : List F → Nat → List F)
    (hkm : ∀ xs c, (km xs c).length = c)
    (emb : List F) (labels : List Int) (n k : Nat)
    (hall : npUnique labels = (List.range n).map Int.ofNat) :
    (compute_clusters km emb labels k).2 =
      ((npUnique labels).map fun c => List.replicate k c).flatten ∧
    (compute_clusters km emb labels k).1.length = n * k ∧
    (compute_clusters km emb labels k).2 =
      (((List.range n).map Int.ofNat).map fun c => List.replicate k c).flatten := by
  have hgen : ∀ us : List Int,
      ((us.map fun c => km (selectClass emb labels c) k).flatten).length =
        us.length * k := by
    intro us
    rw [List.length_flatten, List.map_map]
    have hpt : us.map (List.length ∘ fun c => km (selectClass emb labels c) k) =
        us.map fun _ => k :=
      List.map_congr_left fun c _ => by simp [Function.comp, hkm]
    rw [hpt, sum_map_const]
  refine ⟨rfl, ?_, ?_⟩
  · have h1 : (compute_clusters km emb labels k).1.length =
        (npUnique labels).length * k := hgen (npUnique labels)
    rw [h1, hall]
    simp
  · rw [← hall]
    exact rfl

/-- Witness for C4, the spec's own example sizes: three classes, two
prototypes per class give six feature rows and labels `[0,0,1,1,2,2]`
(with a stand-in clustering primitive returning the requested number of
centroid tokens). -/
theorem claim_C4_witness :
    (compute_clusters (fun _ c => List.replicate c (0 : Int))
      [1, 2, 3, 4, 5, 6] [0, 1, 2, 0, 1, 2] 2).1.length = 3 * 2 ∧
    (compute_clusters (fun _ c => List.replicate c (0 : Int))
      [1, 2, 3, 4, 5, 6] [0, 1, 2, 0, 1, 2] 2).2 = [0, 0, 1, 1, 2, 2] := by
  have h := claim_C4_cluster_prototypes (F := Int)
    (fun _ c => List.replicate c (0 : Int)) (fun xs c => by simp)
    [1, 2, 3, 4, 5, 6] [0, 1, 2, 0, 1, 2] 3 2 (by decide)
  refine ⟨h.2.1, ?_⟩
  rw [h.2.2]
  decide

end NWSupport
